import Mathlib

/-!
Shallow embedding of the Client Relay of the medical-report-summary SaaS app
(`saas/pages/product.tsx`): the `handleSubmit` submission flow, the SSE
stream callbacks (`onmessage`, `onclose`, `onerror`), the bounded
browser-local history cache, and the lazy history initializer.
-/

namespace MediNotes

/-- Maximum number of entries kept in the browser-local history cache
(source line 29: `const MAX_HISTORY = 50`). -/
def MAX_HISTORY : Nat := 50

/-- Maximum accepted upload size in bytes
(source line 40: `const MAX_FILE_SIZE = 5 * 1024 * 1024`). -/
def MAX_FILE_SIZE : Nat := 5 * 1024 * 1024

/-- Model of JavaScript `String.prototype.trim`: drop leading and trailing
whitespace characters.  Defined over the character list so that it evaluates
inside the kernel. -/
def jsTrim (s : String) : String :=
  String.mk (((s.data.dropWhile Char.isWhitespace).reverse.dropWhile Char.isWhitespace).reverse)

/-- A client-side file selected for upload.  `size` is the byte count the
browser reports; `base64` and `mime` are the payload `fileToBase64` produces
from it (source lines 43-54). -/
structure File where
  name : String
  size : Nat
  base64 : String
  mime : String
deriving DecidableEq, Repr

/-- One cached summary (source line 30: `type HistoryEntry`). -/
structure HistoryEntry where
  id : String
  patient_name : String
  date_of_visit : String
  summary : String
  created_at : String
deriving DecidableEq, Repr

/-- The JSON request body of the consultation call (source lines 80-88).
A field of value `none` is absent from the serialized body, matching how
`JSON.stringify` drops fields whose value is `undefined`. -/
structure Body where
  patient_name : String
  date_of_visit : String
  notes : Option String
  file_base64 : Option String
  file_mime : Option String
deriving DecidableEq, Repr

/-- A network request issued by the client. -/
structure Request where
  url : String
  authToken : String
  body : Body
deriving DecidableEq, Repr

/-- How a server-sent-event stream terminates: a normal close (the `onclose`
callback fires) or an error (the `onerror` callback fires and aborts). -/
inductive StreamEnd where
  | closed
  | error
deriving DecidableEq, Repr

/-- One SSE stream as observed by the client: the data chunks delivered to
`onmessage` in arrival order, then the terminal event. -/
structure Stream where
  chunks : List String
  ending : StreamEnd
deriving DecidableEq, Repr

/-- The two pieces of state touched on each message: the local `buffer`
variable and the `output` React state shown as the transcript. -/
structure StreamState where
  buffer : String
  output : String
deriving DecidableEq, Repr

/-- The `onmessage` callback (source lines 101-104):
`buffer += ev.data; setOutput(buffer)`. -/
def onmessage (st : StreamState) (data : String) : StreamState :=
  { buffer := st.buffer ++ data, output := st.buffer ++ data }

/-- The stream state after a list of chunks has arrived, starting from the
initial state (`let buffer = ''` at line 91, `setOutput('')` at line 59). -/
def processChunks (chunks : List String) : StreamState :=
  chunks.foldl onmessage { buffer := "", output := "" }

/-- Concatenation of a chunk list in arrival order (the specification-side
notion used to state properties of the accumulated buffer). -/
def concatChunks : List String → String
  | [] => ""
  | c :: cs => c ++ concatChunks cs

/-- The history-cache append (source line 116:
`[entry, ...prev].slice(0, MAX_HISTORY)`). -/
def appendHistory (entry : HistoryEntry) (prev : List HistoryEntry) : List HistoryEntry :=
  (entry :: prev).take MAX_HISTORY

/-- The history entry built in `onclose` (source lines 108-114); `freshId`
models `crypto.randomUUID()` and `now` models `new Date().toISOString()`. -/
def mkEntry (freshId patientName dateStr buffer now : String) : HistoryEntry :=
  { id := freshId, patient_name := patientName, date_of_visit := dateStr,
    summary := buffer, created_at := now }

/-- Observable effects of the `onclose` handler: the final loading flag, the
new cache contents, whether a record was written to browser storage, and
every network request the handler issues. -/
structure CloseResult where
  loading : Bool
  history : List HistoryEntry
  storedToLocal : Bool
  backendCalls : List Request
deriving DecidableEq, Repr

/-- The `onclose` callback (source lines 105-121): stop the loading
indicator; when the trimmed buffer is non-empty, prepend a fresh entry to
the bounded local cache and persist the cache to browser storage.
`backendCalls` records the network requests issued inside the handler; the
source issues none there. -/
def onclose (patientName dateStr freshId now : String) (buffer : String)
    (prev : List HistoryEntry) : CloseResult :=
  if jsTrim buffer = "" then
    { loading := false, history := prev, storedToLocal := false, backendCalls := [] }
  else
    { loading := false,
      history := appendHistory (mkEntry freshId patientName dateStr buffer now) prev,
      storedToLocal := true,
      backendCalls := [] }

/-- The date string put in the body and in history entries (source lines 82
and 111: `visitDate?.toISOString().slice(0, 10) || ''`); `visitDate` is
modelled as the ISO date substring when a date is selected, `none` when the
picker is cleared. -/
def dateOfVisit (visitDate : Option String) : String :=
  visitDate.getD ""

/-- The size check of source line 67: `file && file.size > MAX_FILE_SIZE`. -/
def fileTooLarge : Option File → Bool
  | some f => decide (MAX_FILE_SIZE < f.size)
  | none => false

/-- The JSON body construction (source lines 80-88):
`notes: notes.trim() || undefined`, and `file_base64`/`file_mime` added only
when a file is attached. -/
def mkBody (patientName : String) (visitDate : Option String) (notes : String)
    (file : Option File) : Body :=
  { patient_name := patientName,
    date_of_visit := dateOfVisit visitDate,
    notes := if jsTrim notes = "" then none else some (jsTrim notes),
    file_base64 := file.map fun f => f.base64,
    file_mime := file.map fun f => f.mime }

/-- The observable outcome of one `handleSubmit` run: the final values of the
React state (`output`, `fileError`, `loading`, `history`), whether
`getToken` was invoked, every network request issued, whether the SSE
connection was aborted, and whether a cache record was written to browser
storage. -/
structure SubmitResult where
  output : String
  fileError : String
  loading : Bool
  history : List HistoryEntry
  tokenFetched : Bool
  requests : List Request
  aborted : Bool
  storedToLocal : Bool
deriving DecidableEq, Repr

/-- The `handleSubmit` flow (source lines 56-128).  `token` models the value
`await getToken()` would return (`none` for `null`; the empty string is also
falsy in the guard `if (!jwt)`).  `stream` is the SSE stream the request
would observe; on a normal close the `onclose` handler runs, on an error the
`onerror` handler aborts the connection. -/
def handleSubmit (patientName : String) (visitDate : Option String) (notes : String)
    (file : Option File) (token : Option String) (stream : Stream)
    (prev : List HistoryEntry) (freshId now : String) : SubmitResult :=
  if jsTrim notes = "" ∧ file = none then
    { output := "Please enter consultation notes or upload a PDF/image.",
      fileError := "", loading := false, history := prev, tokenFetched := false,
      requests := [], aborted := false, storedToLocal := false }
  else if fileTooLarge file then
    { output := "", fileError := "File must be under 5MB.", loading := false,
      history := prev, tokenFetched := false, requests := [], aborted := false,
      storedToLocal := false }
  else if token = none ∨ token = some "" then
    { output := "Authentication required", fileError := "", loading := false,
      history := prev, tokenFetched := true, requests := [], aborted := false,
      storedToLocal := false }
  else
    let jwt := token.getD ""
    let req : Request :=
      { url := "/api", authToken := jwt, body := mkBody patientName visitDate notes file }
    let st := processChunks stream.chunks
    match stream.ending with
    | StreamEnd.closed =>
      let c := onclose patientName (dateOfVisit visitDate) freshId now st.buffer prev
      { output := st.output, fileError := "", loading := c.loading,
        history := c.history, tokenFetched := true,
        requests := req :: c.backendCalls, aborted := false,
        storedToLocal := c.storedToLocal }
    | StreamEnd.error =>
      { output := st.output, fileError := "", loading := false, history := prev,
        tokenFetched := true, requests := [req], aborted := true,
        storedToLocal := false }

/-- A JSON value, as produced by `JSON.parse`. -/
inductive Json where
  | null
  | bool (b : Bool)
  | num (n : Int)
  | str (s : String)
  | arr (elems : List Json)
  | obj (fields : List (String × Json))

/-- The `Array.isArray` test of source line 36. -/
def Json.isArray : Json → Bool
  | Json.arr _ => true
  | _ => false

/-- The lazy initializer of the `history` state (source lines 31-38).
`raw` is `localStorage.getItem(HISTORY_KEY)` (`none` when the key is
absent); `parse` models `JSON.parse`, returning `Except.error` when it
throws.  A falsy `raw` (absent key or empty string) yields `[]`; a parse
failure is caught and yields `[]`; a parsed non-array value yields `[]`;
a parsed array is truncated to its first `MAX_HISTORY` elements. -/
def initHistory (raw : Option String) (parse : String → Except Unit Json) : List Json :=
  match raw with
  | none => []
  | some s =>
    if s = "" then []
    else
      match parse s with
      | Except.error _ => []
      | Except.ok j =>
        match j with
        | Json.arr xs => xs.take MAX_HISTORY
        | _ => []

end MediNotes

namespace MediNotes

theorem concatChunks_append (l₁ l₂ : List String) :
    concatChunks (l₁ ++ l₂) = concatChunks l₁ ++ concatChunks l₂ := by
  induction l₁ with
  | nil => simp [concatChunks]
  | cons c cs ih => simp [concatChunks, ih, String.append_assoc]

theorem foldl_onmessage_buffer (chunks : List String) (st : StreamState) :
    (chunks.foldl onmessage st).buffer = st.buffer ++ concatChunks chunks := by
  induction chunks generalizing st with
  | nil => simp [concatChunks]
  | cons c cs ih =>
    simp only [List.foldl_cons, ih, onmessage, concatChunks, String.append_assoc]

theorem foldl_onmessage_output (chunks : List String) (st : StreamState)
    (h : st.output = st.buffer) :
    (chunks.foldl onmessage st).output = (chunks.foldl onmessage st).buffer := by
  induction chunks generalizing st with
  | nil => simpa using h
  | cons c cs ih =>
    simp only [List.foldl_cons]
    exact ih _ rfl

theorem processChunks_buffer (chunks : List String) :
    (processChunks chunks).buffer = concatChunks chunks := by
  simpa [processChunks] using foldl_onmessage_buffer chunks ⟨"", ""⟩

theorem processChunks_output (chunks : List String) :
    (processChunks chunks).output = concatChunks chunks := by
  have h := foldl_onmessage_output chunks ⟨"", ""⟩ rfl
  have hb := processChunks_buffer chunks
  unfold processChunks at h hb ⊢
  rw [h, hb]

theorem appendHistory_eq (entry : HistoryEntry) (prev : List HistoryEntry) :
    appendHistory entry prev = entry :: prev.take (MAX_HISTORY - 1) := rfl

/-- C5: during streaming, after every chunk arrival the displayed transcript
equals the concatenation of all chunks received so far in arrival order, and
the accumulating buffer is append-only: the buffer after the whole stream
extends the buffer held after any prefix of the chunks by exactly the
concatenation of the remaining chunks, never reordering or rewriting
earlier content. -/
theorem c5_transcript_fresh (chunks : List String) (k : Nat) :
    (processChunks (chunks.take k)).output = concatChunks (chunks.take k)
    ∧ (processChunks chunks).buffer
        = (processChunks (chunks.take k)).buffer ++ concatChunks (chunks.drop k) := by
  refine ⟨processChunks_output _, ?_⟩
  rw [processChunks_buffer, processChunks_buffer, ← concatChunks_append,
    List.take_append_drop]

/-- C6: the local history cache is bounded at the most recent `MAX_HISTORY`
(= 50) entries: initialization from browser storage yields at most 50
entries, and appending a new entry yields at most 50 entries with the new
(newest) entry first. -/
theorem c6_bounded_cache (entry : HistoryEntry) (prev : List HistoryEntry)
    (raw : Option String) (parse : String → Except Unit Json) :
    (initHistory raw parse).length ≤ MAX_HISTORY
    ∧ (appendHistory entry prev).length ≤ MAX_HISTORY
    ∧ (appendHistory entry prev).head? = some entry := by
  refine ⟨?_, ?_, ?_⟩
  · unfold initHistory
    split
    · simp
    · split
      · simp
      · split
        · simp
        · split
          · exact List.length_take_le _ _
          · simp
  · exact List.length_take_le _ _
  · rw [appendHistory_eq]
    rfl

/-- C7: history entries are immutable once written: appending a new entry
produces exactly the new entry followed by a prefix of the previous cache, so
the id, patient name, date of visit, summary and creation timestamp of every
entry that remains cached are unchanged, and older entries can only be
dropped from the tail when the bound is exceeded, never updated. -/
theorem c7_immutable_entries (entry : HistoryEntry) (prev : List HistoryEntry) :
    appendHistory entry prev = entry :: prev.take (MAX_HISTORY - 1)
    ∧ prev.take (MAX_HISTORY - 1) <+: prev :=
  ⟨appendHistory_eq entry prev, ⟨prev.drop (MAX_HISTORY - 1), List.take_append_drop _ _⟩⟩

theorem handleSubmit_closed_eq (patientName : String) (visitDate : Option String)
    (notes : String) (file : Option File) (jwt : String) (chunks : List String)
    (prev : List HistoryEntry) (freshId now : String)
    (hvalid : ¬(jsTrim notes = "" ∧ file = none))
    (hsize : fileTooLarge file = false) (hjwt : jwt ≠ "") :
    handleSubmit patientName visitDate notes file (some jwt)
        { chunks := chunks, ending := StreamEnd.closed } prev freshId now =
      { output := (processChunks chunks).output,
        fileError := "",
        loading := (onclose patientName (dateOfVisit visitDate) freshId now
          (processChunks chunks).buffer prev).loading,
        history := (onclose patientName (dateOfVisit visitDate) freshId now
          (processChunks chunks).buffer prev).history,
        tokenFetched := true,
        requests := { url := "/api", authToken := jwt,
                      body := mkBody patientName visitDate notes file }
          :: (onclose patientName (dateOfVisit visitDate) freshId now
            (processChunks chunks).buffer prev).backendCalls,
        aborted := false,
        storedToLocal := (onclose patientName (dateOfVisit visitDate) freshId now
          (processChunks chunks).buffer prev).storedToLocal } := by
  unfold handleSubmit
  rw [if_neg hvalid, if_neg (by simp [hsize]), if_neg (by simp [hjwt])]
  rfl

theorem handleSubmit_error_eq (patientName : String) (visitDate : Option String)
    (notes : String) (file : Option File) (jwt : String) (chunks : List String)
    (prev : List HistoryEntry) (freshId now : String)
    (hvalid : ¬(jsTrim notes = "" ∧ file = none))
    (hsize : fileTooLarge file = false) (hjwt : jwt ≠ "") :
    handleSubmit patientName visitDate notes file (some jwt)
        { chunks := chunks, ending := StreamEnd.error } prev freshId now =
      { output := (processChunks chunks).output,
        fileError := "",
        loading := false,
        history := prev,
        tokenFetched := true,
        requests := [{ url := "/api", authToken := jwt,
                       body := mkBody patientName visitDate notes file }],
        aborted := true,
        storedToLocal := false } := by
  unfold handleSubmit
  rw [if_neg hvalid, if_neg (by simp [hsize]), if_neg (by simp [hjwt])]
  rfl

/-- C3: a submission whose trimmed notes are empty with no file attached, or
whose attached file exceeds 5 MiB, is rejected locally with an error message
before anything is sent: the token getter is never invoked and no network
request is issued, and the loading indicator is stopped. -/
theorem c3_local_rejection (patientName : String) (visitDate : Option String)
    (notes : String) (file : Option File) (token : Option String) (stream : Stream)
    (prev : List HistoryEntry) (freshId now : String)
    (h : (jsTrim notes = "" ∧ file = none) ∨ fileTooLarge file = true) :
    (handleSubmit patientName visitDate notes file token stream prev freshId now).tokenFetched
        = false
    ∧ (handleSubmit patientName visitDate notes file token stream prev freshId now).requests
        = []
    ∧ (handleSubmit patientName visitDate notes file token stream prev freshId now).loading
        = false
    ∧ ((handleSubmit patientName visitDate notes file token stream prev freshId now).output
          = "Please enter consultation notes or upload a PDF/image."
        ∨ (handleSubmit patientName visitDate notes file token stream prev freshId now).fileError
          = "File must be under 5MB.") := by
  rcases h with ⟨h1, h2⟩ | h2
  · subst h2
    unfold handleSubmit
    rw [if_pos ⟨h1, rfl⟩]
    exact ⟨rfl, rfl, rfl, Or.inl rfl⟩
  · have hne : ¬(jsTrim notes = "" ∧ file = none) := by
      rintro ⟨h1, h3⟩
      subst h3
      simp [fileTooLarge] at h2
    unfold handleSubmit
    rw [if_neg hne, if_pos h2]
    exact ⟨rfl, rfl, rfl, Or.inr rfl⟩

theorem c3_witness :
    (handleSubmit "Jane Doe" (some "2024-03-01") "   " none (some "tok")
        { chunks := ["x"], ending := StreamEnd.closed } [] "id-1" "t1").tokenFetched = false
    ∧ (handleSubmit "Jane Doe" (some "2024-03-01") "   " none (some "tok")
        { chunks := ["x"], ending := StreamEnd.closed } [] "id-1" "t1").requests = []
    ∧ (handleSubmit "Jane Doe" (some "2024-03-01") "   " none (some "tok")
        { chunks := ["x"], ending := StreamEnd.closed } [] "id-1" "t1").loading = false
    ∧ ((handleSubmit "Jane Doe" (some "2024-03-01") "   " none (some "tok")
          { chunks := ["x"], ending := StreamEnd.closed } [] "id-1" "t1").output
          = "Please enter consultation notes or upload a PDF/image."
        ∨ (handleSubmit "Jane Doe" (some "2024-03-01") "   " none (some "tok")
          { chunks := ["x"], ending := StreamEnd.closed } [] "id-1" "t1").fileError
          = "File must be under 5MB.") :=
  c3_local_rejection "Jane Doe" (some "2024-03-01") "   " none (some "tok")
    { chunks := ["x"], ending := StreamEnd.closed } [] "id-1" "t1"
    (Or.inl ⟨by decide, rfl⟩)

/-- C8: a submission that passes local validation but for which no bearer
token can be obtained (the token getter returns null or an empty string)
issues no network request, displays the message "Authentication required",
and stops the loading indicator. -/
theorem c8_auth_required (patientName : String) (visitDate : Option String)
    (notes : String) (file : Option File) (token : Option String) (stream : Stream)
    (prev : List HistoryEntry) (freshId now : String)
    (hvalid : ¬(jsTrim notes = "" ∧ file = none))
    (hsize : fileTooLarge file = false)
    (htok : token = none ∨ token = some "") :
    (handleSubmit patientName visitDate notes file token stream prev freshId now).output
        = "Authentication required"
    ∧ (handleSubmit patientName visitDate notes file token stream prev freshId now).loading
        = false
    ∧ (handleSubmit patientName visitDate notes file token stream prev freshId now).requests
        = []
    ∧ (handleSubmit patientName visitDate notes file token stream prev freshId now).tokenFetched
        = true := by
  unfold handleSubmit
  rw [if_neg hvalid, if_neg (by simp [hsize]), if_pos htok]
  exact ⟨rfl, rfl, rfl, rfl⟩

theorem c8_witness :
    (handleSubmit "Jane Doe" (some "2024-03-01") "BP 120" none none
        { chunks := [], ending := StreamEnd.closed } [] "id-1" "t1").output
        = "Authentication required"
    ∧ (handleSubmit "Jane Doe" (some "2024-03-01") "BP 120" none none
        { chunks := [], ending := StreamEnd.closed } [] "id-1" "t1").loading = false
    ∧ (handleSubmit "Jane Doe" (some "2024-03-01") "BP 120" none none
        { chunks := [], ending := StreamEnd.closed } [] "id-1" "t1").requests = []
    ∧ (handleSubmit "Jane Doe" (some "2024-03-01") "BP 120" none none
        { chunks := [], ending := StreamEnd.closed } [] "id-1" "t1").tokenFetched = true :=
  c8_auth_required "Jane Doe" (some "2024-03-01") "BP 120" none none
    { chunks := [], ending := StreamEnd.closed } [] "id-1" "t1"
    (by decide) rfl (Or.inl rfl)

/-- C10: the request body contains a notes field exactly when the trimmed
notes text is non-empty, and then its value is the trimmed notes (so
whitespace-only notes are omitted entirely); the file payload fields are
included exactly when a file is attached, carrying its base64 payload and
MIME type. -/
theorem c10_body_fields (patientName : String) (visitDate : Option String)
    (notes : String) (file : Option File) :
    ((mkBody patientName visitDate notes file).notes.isSome ↔ jsTrim notes ≠ "")
    ∧ (mkBody patientName visitDate notes file).notes.getD "" = jsTrim notes
    ∧ (mkBody patientName visitDate notes file).file_base64 = (file.map fun f => f.base64)
    ∧ (mkBody patientName visitDate notes file).file_mime = (file.map fun f => f.mime) := by
  unfold mkBody
  by_cases h : jsTrim notes = "" <;> simp [h]

/-- C1: evaluation at the failing input.  A stream that closes with the
non-empty accumulated buffer "Summary text" makes the `onclose` handler
construct the local cache record, but the handler issues no backend request
at all, so no durable-save call to the History Store is triggered; the whole
submission issues exactly one network request, namely the consultation
streaming call itself. -/
theorem c1_no_durable_save :
    (onclose "Jane Doe" "2024-03-01" "id-1" "t1" "Summary text" []).storedToLocal = true
    ∧ (onclose "Jane Doe" "2024-03-01" "id-1" "t1" "Summary text" []).backendCalls = []
    ∧ (handleSubmit "Jane Doe" (some "2024-03-01") "BP 120" none (some "tok")
        { chunks := ["Summary text"], ending := StreamEnd.closed } [] "id-1" "t1").requests
      = [{ url := "/api", authToken := "tok",
           body := mkBody "Jane Doe" (some "2024-03-01") "BP 120" none }] := by
  decide

/-- C2 counterexample: a completed stream whose single chunk is one space has
non-empty accumulated text, yet the code appends no history entry (the guard
tests the trimmed buffer), falsifying the claim as stated. -/
theorem c2_whitespace_counterexample :
    concatChunks [" "] ≠ ""
    ∧ (handleSubmit "Jane Doe" (some "2024-03-01") "BP 120" none (some "tok")
        { chunks := [" "], ending := StreamEnd.closed } [] "id-1" "t1").history = [] := by
  decide

/-- C2 (amended): for every completed stream whose accumulated text is
non-empty after trimming, exactly one history entry is appended — the new
cache is the new entry followed by the previous entries truncated to the
bound — and its summary text equals the exact concatenation of the received
chunks in arrival order. -/
theorem c2_single_append (patientName : String) (visitDate : Option String)
    (notes : String) (file : Option File) (jwt : String) (chunks : List String)
    (prev : List HistoryEntry) (freshId now : String)
    (hvalid : ¬(jsTrim notes = "" ∧ file = none))
    (hsize : fileTooLarge file = false) (hjwt : jwt ≠ "")
    (hbuf : jsTrim (concatChunks chunks) ≠ "") :
    (handleSubmit patientName visitDate notes file (some jwt)
        { chunks := chunks, ending := StreamEnd.closed } prev freshId now).history
      = mkEntry freshId patientName (dateOfVisit visitDate) (concatChunks chunks) now
          :: prev.take (MAX_HISTORY - 1)
    ∧ (mkEntry freshId patientName (dateOfVisit visitDate) (concatChunks chunks) now).summary
      = concatChunks chunks := by
  refine ⟨?_, rfl⟩
  rw [handleSubmit_closed_eq patientName visitDate notes file jwt chunks prev freshId now
    hvalid hsize hjwt]
  show (onclose patientName (dateOfVisit visitDate) freshId now
    (processChunks chunks).buffer prev).history = _
  rw [processChunks_buffer]
  unfold onclose
  rw [if_neg hbuf]
  exact appendHistory_eq _ _

theorem c2_witness :
    (handleSubmit "Jane Doe" (some "2024-03-01") "BP 120" none (some "tok")
        { chunks := ["Summary ", "text."], ending := StreamEnd.closed } [] "id-1" "t1").history
      = mkEntry "id-1" "Jane Doe" (dateOfVisit (some "2024-03-01"))
          (concatChunks ["Summary ", "text."]) "t1"
        :: ([] : List HistoryEntry).take (MAX_HISTORY - 1)
    ∧ (mkEntry "id-1" "Jane Doe" (dateOfVisit (some "2024-03-01"))
        (concatChunks ["Summary ", "text."]) "t1").summary
      = concatChunks ["Summary ", "text."] :=
  c2_single_append "Jane Doe" (some "2024-03-01") "BP 120" none "tok"
    ["Summary ", "text."] [] "id-1" "t1" (by decide) rfl (by decide) (by decide)

/-- C4: for every stream that ends in error, the relay aborts the underlying
connection and stops the loading indicator without treating the error as
fatal (the previous history survives and whatever text arrived stays on
screen); and for every stream that ends — normally or abnormally — before
any chunk arrives, no history entry is created. -/
theorem c4_error_graceful (patientName : String) (visitDate : Option String)
    (notes : String) (file : Option File) (jwt : String) (chunks : List String)
    (ending : StreamEnd) (prev : List HistoryEntry) (freshId now : String)
    (hvalid : ¬(jsTrim notes = "" ∧ file = none))
    (hsize : fileTooLarge file = false) (hjwt : jwt ≠ "") :
    ((handleSubmit patientName visitDate notes file (some jwt)
        { chunks := chunks, ending := StreamEnd.error } prev freshId now).aborted = true
      ∧ (handleSubmit patientName visitDate notes file (some jwt)
          { chunks := chunks, ending := StreamEnd.error } prev freshId now).loading = false
      ∧ (handleSubmit patientName visitDate notes file (some jwt)
          { chunks := chunks, ending := StreamEnd.error } prev freshId now).history = prev
      ∧ (handleSubmit patientName visitDate notes file (some jwt)
          { chunks := chunks, ending := StreamEnd.error } prev freshId now).output
        = concatChunks chunks)
    ∧ (handleSubmit patientName visitDate notes file (some jwt)
        { chunks := [], ending := ending } prev freshId now).history = prev := by
  constructor
  · rw [handleSubmit_error_eq patientName visitDate notes file jwt chunks prev freshId now
      hvalid hsize hjwt]
    exact ⟨rfl, rfl, rfl, processChunks_output chunks⟩
  · cases ending with
    | closed =>
      rw [handleSubmit_closed_eq patientName visitDate notes file jwt [] prev freshId now
        hvalid hsize hjwt]
      rfl
    | error =>
      rw [handleSubmit_error_eq patientName visitDate notes file jwt [] prev freshId now
        hvalid hsize hjwt]

theorem c4_witness :
    ((handleSubmit "Jane Doe" (some "2024-03-01") "BP 120" none (some "tok")
        { chunks := ["partial "], ending := StreamEnd.error } [] "id-1" "t1").aborted = true
      ∧ (handleSubmit "Jane Doe" (some "2024-03-01") "BP 120" none (some "tok")
          { chunks := ["partial "], ending := StreamEnd.error } [] "id-1" "t1").loading = false
      ∧ (handleSubmit "Jane Doe" (some "2024-03-01") "BP 120" none (some "tok")
          { chunks := ["partial "], ending := StreamEnd.error } [] "id-1" "t1").history = []
      ∧ (handleSubmit "Jane Doe" (some "2024-03-01") "BP 120" none (some "tok")
          { chunks := ["partial "], ending := StreamEnd.error } [] "id-1" "t1").output
        = concatChunks ["partial "])
    ∧ (handleSubmit "Jane Doe" (some "2024-03-01") "BP 120" none (some "tok")
        { chunks := [], ending := StreamEnd.closed } [] "id-1" "t1").history = [] :=
  c4_error_graceful "Jane Doe" (some "2024-03-01") "BP 120" none "tok"
    ["partial "] StreamEnd.closed [] "id-1" "t1" (by decide) rfl (by decide)

/-- C9: history-cache initialization is total and safe: an absent key (and
likewise a stored empty string) yields the empty list, a stored value on
which parsing fails yields the empty list, a parsed non-array value yields
the empty list, and a parsed array is truncated to its first `MAX_HISTORY`
(= 50) elements; every case returns a value, so no exception escapes the
initializer. -/
theorem c9_init_safe (parse : String → Except Unit Json) (s : String)
    (xs : List Json) (j : Json) :
    initHistory none parse = []
    ∧ initHistory (some "") parse = []
    ∧ (parse s = Except.error () → initHistory (some s) parse = [])
    ∧ (parse s = Except.ok j → j.isArray = false → initHistory (some s) parse = [])
    ∧ (s ≠ "" → parse s = Except.ok (Json.arr xs) →
        initHistory (some s) parse = xs.take MAX_HISTORY) := by
  refine ⟨rfl, rfl, ?_, ?_, ?_⟩
  · intro hp
    simp only [initHistory]
    by_cases hs : s = ""
    · simp [hs]
    · simp [hs, hp]
  · intro hp hj
    simp only [initHistory]
    by_cases hs : s = ""
    · simp [hs]
    · rw [if_neg hs, hp]
      cases j with
      | arr elems => simp [Json.isArray] at hj
      | null => rfl
      | bool b => rfl
      | num n => rfl
      | str t => rfl
      | obj fields => rfl
  · intro hs hp
    simp only [initHistory]
    rw [if_neg hs, hp]

theorem c9_witness :
    initHistory (some "[0]") (fun _ => Except.ok (Json.arr (List.replicate 51 Json.null)))
      = (List.replicate 51 Json.null).take MAX_HISTORY :=
  (c9_init_safe (fun _ => Except.ok (Json.arr (List.replicate 51 Json.null))) "[0]"
    (List.replicate 51 Json.null) Json.null).2.2.2.2 (by decide) rfl

end MediNotes
